import Mathlib

/-!
Verification of the ssh-tunnel supervisor (Go sources: main.go, config.go)
against its natural-language specification.

The Go program is shallowly embedded: each function that a claim touches is
translated into an executable Lean definition over an explicit environment
that stands for the operating-system facts the code consults (file contents,
process liveness, dial outcomes, signal delivery outcomes).  Side effects are
made observable as action traces or counters so that statements such as
"the traffic probe is never attempted" or "the file is not rewritten" can be
expressed as equations.
-/

namespace SSHTunnel

/-! ## PID-file singleton guard (main.go: createPIDFile) -/

/-- Result of folding decimal digits; fails on the empty digit list or any
non-digit character, as strconv.Atoi does. -/
def digitsToNat? (l : List Char) : Option Nat :=
  match l with
  | [] => none
  | _ =>
    l.foldl
      (fun acc c =>
        acc.bind (fun n => if c.isDigit then some (n * 10 + (c.toNat - 48)) else none))
      (some 0)

/-- ASCII whitespace as trimmed by Go bytes.TrimSpace (the Unicode space
classes beyond ASCII do not occur in PID files). -/
def isSpaceChar (c : Char) : Bool :=
  c == ' ' || c == '\t' || c == '\n' || c == '\r' || c == '\x0b' || c == '\x0c'

/-- Go bytes.TrimSpace: drop leading and trailing whitespace. -/
def trimSpace (s : String) : String :=
  String.mk (((s.toList.dropWhile isSpaceChar).reverse.dropWhile isSpaceChar).reverse)

/-- Go strconv.Atoi: an optional sign followed by a nonempty run of decimal
digits; anything else is a parse error.  (Overflow of 64-bit int is not
modelled; PID-file contents are far below that range.) -/
def atoi? (s : String) : Option Int :=
  match s.toList with
  | [] => none
  | '+' :: rest => (digitsToNat? rest).map Int.ofNat
  | '-' :: rest => (digitsToNat? rest).map (fun n => -(Int.ofNat n))
  | cs => (digitsToNat? cs).map Int.ofNat

/-- The operating-system facts createPIDFile consults: the lock file's content
(none when os.Stat reports it absent), which process identifiers are alive
(Signal 0 succeeds; on Unix os.FindProcess itself never errors), and the
caller's own PID (os.Getpid). -/
structure PIDWorld where
  pidFile : Option String
  alive : Int → Bool
  selfPid : Nat

/-- Errors createPIDFile can return to its caller (both abort initialization,
exiting the program non-zero). -/
inductive PIDError where
  | parseFailed (content : String)
  | alreadyRunning (pid : Int)
deriving DecidableEq

/-- Observable file operations performed on the lock file. -/
inductive FileOp where
  | remove
  | write (content : String)
deriving DecidableEq

/-- main.go createPIDFile: if the lock file exists, read it, trim whitespace
and parse the decimal PID (parse failure is returned as an error); probe the
recorded PID with signal 0; if alive, fail naming that PID; otherwise remove
the stale file.  In every non-error path, finish by writing the caller's own
PID. -/
def createPIDFile (w : PIDWorld) : Except PIDError PIDWorld × List FileOp :=
  match w.pidFile with
  | none =>
    (Except.ok { w with pidFile := some (toString w.selfPid) },
     [FileOp.write (toString w.selfPid)])
  | some content =>
    match atoi? (trimSpace content) with
    | none => (Except.error (PIDError.parseFailed content), [])
    | some pid =>
      if w.alive pid then (Except.error (PIDError.alreadyRunning pid), [])
      else
        (Except.ok { w with pidFile := some (toString w.selfPid) },
         [FileOp.remove, FileOp.write (toString w.selfPid)])

/-! ## Health check (main.go: checkPort, checkTraffic) -/

/-- Network facts one health-check cycle consults: whether the TCP dial to the
proxy endpoint succeeds within the port timeout, and the outcome of the
proxied HTTP HEAD probe (none for a transport-level failure, some code for a
response with that HTTP status).  http.NewRequest with the constant valid
method and URL used by the code cannot fail, so it has no environment knob. -/
structure NetEnv where
  portOpen : Bool
  headResult : Option Nat

/-- Counters of network actions taken, for short-circuit claims. -/
structure NetCount where
  portDials : Nat
  headProbes : Nat
deriving DecidableEq

/-- main.go checkPort: one dial attempt; true iff it succeeds. -/
def checkPort (portOpen : Bool) : Bool × NetCount :=
  (portOpen, ⟨1, 0⟩)

/-- main.go checkTraffic: stage 1 is checkPort; on failure return false without
probing.  Stage 2 issues one HEAD probe through the proxy; transport failure
is false, and otherwise the result is (status == 200). -/
def checkTraffic (env : NetEnv) : Bool × NetCount :=
  match checkPort env.portOpen with
  | (false, c) => (false, c)
  | (true, c) =>
    match env.headResult with
    | none => (false, ⟨c.portDials, c.headProbes + 1⟩)
    | some code => (code == 200, ⟨c.portDials, c.headProbes + 1⟩)

/-! ## Process handle and supervisor transitions
(main.go: isProcessRunning, startSSH, waitForTunnelReady, stopSSH) -/

/-- The observable fields of an exec.Cmd the supervisor consults:
hasProcess stands for cmd.Process being non-nil (set by a successful Start),
exited for cmd.ProcessState being non-nil (set once an exit was observed). -/
structure ProcHandle where
  hasProcess : Bool
  exited : Bool
deriving DecidableEq

/-- main.go isProcessRunning: cmd non-nil, cmd.Process non-nil and
cmd.ProcessState nil.  The supervisor's sshProcess field is the Option. -/
def isProcessRunning (s : Option ProcHandle) : Bool :=
  match s with
  | none => false
  | some h => h.hasProcess && !h.exited

/-- Operating-system outcomes stopSSH can encounter: whether SIGTERM delivery
succeeds, whether Kill succeeds, whether Wait returns without error, and --
as a fact about the world the code never consults -- whether the process had
already exited by the time the blocking Wait is issued. -/
structure StopEnv where
  sigtermOk : Bool
  killOk : Bool
  waitOk : Bool
  exitedBeforeWait : Bool
deriving DecidableEq

/-- Signals and calls stopSSH issues against the process. -/
inductive StopAct where
  | sigterm
  | kill
  | wait
deriving DecidableEq, BEq

/-- main.go stopSSH: no-op when the reference is nil or the process is not
running.  Otherwise send SIGTERM; only when that delivery itself errors,
issue Kill (its own error merely logged); then unconditionally block in Wait
(its error merely logged); finally clear the reference.  stopSSH returns no
error in any path. -/
def stopSSH (env : StopEnv) (s : Option ProcHandle) :
    Option ProcHandle × List StopAct :=
  if isProcessRunning s then
    (none,
     StopAct.sigterm :: ((if env.sigtermOk then [] else [StopAct.kill]) ++ [StopAct.wait]))
  else (s, [])

/-- Environment of one startSSH call: whether cmd.Start succeeds, the handle
of the freshly spawned process, and the outcome of each readiness-poll dial
attempt (attempt i of waitForTunnelReady sees portObs i). -/
structure StartEnv where
  spawnOk : Bool
  newProc : ProcHandle
  portObs : Nat → Bool

inductive StartResult where
  | ok
  | startFailed
  | notReady
deriving DecidableEq

/-- Everything observable about one startSSH call: its return value, the
supervisor's process reference afterwards, how many spawn attempts were made,
the network actions taken, and how many one-second sleeps elapsed. -/
structure StartOutcome where
  result : StartResult
  proc : Option ProcHandle
  spawns : Nat
  net : NetCount
  sleeps : Nat
deriving DecidableEq

/-- The loop body of main.go waitForTunnelReady, with the remaining iteration
count as fuel: attempt a checkPort dial; on success return immediately,
otherwise sleep one second and continue.  Returns the result together with
the network actions taken and the number of sleeps. -/
def waitLoop (portObs : Nat → Bool) (i : Nat) : Nat → Bool × NetCount × Nat
  | 0 => (false, ⟨0, 0⟩, 0)
  | fuel + 1 =>
    if portObs i then (true, ⟨1, 0⟩, 0)
    else
      match waitLoop portObs (i + 1) fuel with
      | (r, c, sl) => (r, ⟨c.portDials + 1, c.headProbes⟩, sl + 1)

/-- main.go waitForTunnelReady: up to 5 checkPort attempts, one second apart. -/
def waitForTunnelReady (portObs : Nat → Bool) : Bool × NetCount × Nat :=
  waitLoop portObs 0 5

/-- main.go startSSH: under the mutex, return nil at once when the current
process is still running (no spawn).  Otherwise spawn; on Start error return
a start error leaving the reference unchanged.  On success store the new
handle, then run waitForTunnelReady; when it reports failure return the
tunnel-not-ready error, keeping the new handle stored. -/
def startSSH (env : StartEnv) (s : Option ProcHandle) : StartOutcome :=
  if isProcessRunning s then ⟨StartResult.ok, s, 0, ⟨0, 0⟩, 0⟩
  else if env.spawnOk then
    match waitForTunnelReady env.portObs with
    | (true, c, sl) => ⟨StartResult.ok, some env.newProc, 1, c, sl⟩
    | (false, c, sl) => ⟨StartResult.notReady, some env.newProc, 1, c, sl⟩
  else ⟨StartResult.startFailed, s, 1, ⟨0, 0⟩, 0⟩

/-! ## Supervisory loop and shutdown (main.go: run, restartTunnel, cleanup)

The Go loop selects between the closed shutdown channel and the ticker, so
the shutdown signal is observed only at that wait boundary, never inside a
health check; the embedding makes each loop event atomic accordingly, and a
schedule is the finite sequence of events the select delivers. -/

/-- The environments one tick consumes: the health-check network facts, and
the stop and start environments used if the tick triggers a restart. -/
structure TickEnv where
  net : NetEnv
  stopEnv : StopEnv
  startEnv : StartEnv

/-- One observation at the loop's select: either the ticker fires or the
shutdown channel is readable. -/
inductive LoopEvent where
  | tick (e : TickEnv)
  | shutdown

/-- Discriminator for shutdown events. -/
def LoopEvent.isShutdown : LoopEvent → Bool
  | LoopEvent.shutdown => true
  | _ => false

/-- Externally visible actions of the loop and of final cleanup. -/
inductive RunAct where
  | healthCheck
  | stopCall
  | startCall
  | removePID
deriving DecidableEq, BEq

/-- main.go run: on each tick run checkTraffic and, when it reports
unhealthy, restartTunnel (stopSSH then startSSH, any start error only
logged); on observing shutdown, return at once.  The state threaded through
is the supervisor's process reference. -/
def runLoop : Option ProcHandle → List LoopEvent → Option ProcHandle × List RunAct
  | s, [] => (s, [])
  | s, LoopEvent.shutdown :: _ => (s, [])
  | s, LoopEvent.tick e :: rest =>
    if (checkTraffic e.net).1 then
      match runLoop s rest with
      | (s9, acts) => (s9, RunAct.healthCheck :: acts)
    else
      match runLoop (startSSH e.startEnv (stopSSH e.stopEnv s).1).proc rest with
      | (s9, acts) =>
        (s9, RunAct.healthCheck :: RunAct.stopCall :: RunAct.startCall :: acts)

/-- main: run the loop, then the deferred cleanup: stopSSH followed by
removal of the PID file (removal errors only logged). -/
def runAndCleanup (s : Option ProcHandle) (evs : List LoopEvent) (cenv : StopEnv) :
    Option ProcHandle × List RunAct :=
  match runLoop s evs with
  | (s1, acts) =>
    ((stopSSH cenv s1).1, acts ++ [RunAct.stopCall, RunAct.removePID])

/-! ## Configuration and SSH argument serialization (config.go) -/

/-- config.go sshOptions (field names as in the source). -/
structure sshOptions where
  TCPKeepAlive : Bool
  ServerAliveInterval : Int
  ConnectTimeout : Int
  StrictHostChecking : Bool
  BindHost : String
  RemoteAddress : String
  RemotePort : Int
  MiscOptions : List String
deriving DecidableEq

/-- config.go config; durations are in seconds. -/
structure config where
  ProxyHost : String
  MainLoopSleep : Int
  PortCheckTimeout : Int
  PIDFile : String
  LogFile : String
  SSHOptions : sshOptions
deriving DecidableEq

/-- config.go validate: true iff validation returns no error. -/
def validate (c : config) : Bool :=
  !(c.SSHOptions.RemoteAddress == "")
    && decide (0 < c.SSHOptions.RemotePort)
    && decide (c.SSHOptions.RemotePort ≤ 65535)
    && decide (0 < c.MainLoopSleep)

/-- config.go serializeSSHOptions: misc options, TCPKeepAlive yes or no,
ServerAliveInterval when positive, ConnectTimeout when positive,
StrictHostKeyChecking=no when strict checking is off, then the dynamic
forward bind spec, the destination address, and the target port. -/
def serializeSSHOptions (c : config) : List String :=
  c.SSHOptions.MiscOptions
    ++ (if c.SSHOptions.TCPKeepAlive then ["-o", "TCPKeepAlive=yes"]
        else ["-o", "TCPKeepAlive=no"])
    ++ (if 0 < c.SSHOptions.ServerAliveInterval then
          ["-o", "ServerAliveInterval=" ++ toString c.SSHOptions.ServerAliveInterval]
        else [])
    ++ (if 0 < c.SSHOptions.ConnectTimeout then
          ["-o", "ConnectTimeout=" ++ toString c.SSHOptions.ConnectTimeout]
        else [])
    ++ (if c.SSHOptions.StrictHostChecking then []
        else ["-o", "StrictHostKeyChecking=no"])
    ++ ["-D", c.SSHOptions.BindHost, c.SSHOptions.RemoteAddress,
        "-p", toString c.SSHOptions.RemotePort]

/-- The argument vector in the order the spec sentence lists it (bind
specification, then target port, then destination address); written from the
claim's words, to be compared against serializeSSHOptions from the source. -/
def serializeSSHOptionsClaimOrder (c : config) : List String :=
  c.SSHOptions.MiscOptions
    ++ (if c.SSHOptions.TCPKeepAlive then ["-o", "TCPKeepAlive=yes"]
        else ["-o", "TCPKeepAlive=no"])
    ++ (if 0 < c.SSHOptions.ServerAliveInterval then
          ["-o", "ServerAliveInterval=" ++ toString c.SSHOptions.ServerAliveInterval]
        else [])
    ++ (if 0 < c.SSHOptions.ConnectTimeout then
          ["-o", "ConnectTimeout=" ++ toString c.SSHOptions.ConnectTimeout]
        else [])
    ++ (if c.SSHOptions.StrictHostChecking then []
        else ["-o", "StrictHostKeyChecking=no"])
    ++ ["-D", c.SSHOptions.BindHost,
        "-p", toString c.SSHOptions.RemotePort, c.SSHOptions.RemoteAddress]

/-- The defaults of newConfigFromEnv, with the required remote address set. -/
def defaultConf : config :=
  ⟨"localhost:8080", 15, 4, "ssh-tunnel.pid", "ssh-tunnel.log",
   ⟨true, 15, 10, false, "0.0.0.0:8080", "user@example.com", 2212, ["-N", "-C"]⟩⟩

/-! ## Claim C1 -/

/-- C1: for an existing lock file whose content parses to a live PID,
createPIDFile fails with the already-running error naming that PID and
performs no file operation; when the parsed PID is dead, it removes the stale
file, writes its own PID and succeeds. -/
theorem c1_singleton_exclusivity (w : PIDWorld) (content : String) (pid : Int)
    (hfile : w.pidFile = some content) (hparse : atoi? (trimSpace content) = some pid) :
    (w.alive pid = true →
      createPIDFile w = (Except.error (PIDError.alreadyRunning pid), [])) ∧
    (w.alive pid = false →
      createPIDFile w =
        (Except.ok { w with pidFile := some (toString w.selfPid) },
         [FileOp.remove, FileOp.write (toString w.selfPid)])) := by
  unfold createPIDFile
  rw [hfile]
  constructor <;> intro h <;> simp [hparse, h]

def c1World : PIDWorld := ⟨some " 42\n", fun p => p == 42, 7⟩

def c1WorldDead : PIDWorld := ⟨some "42", fun _ => false, 7⟩

/-- C1 witness: live owner 42 rejected without rewriting, dead owner 42
reclaimed. -/
theorem c1_singleton_exclusivity_witness :
    (c1World.alive 42 = true ∧
      createPIDFile c1World = (Except.error (PIDError.alreadyRunning 42), [])) ∧
    (c1WorldDead.alive 42 = false ∧
      createPIDFile c1WorldDead =
        (Except.ok { c1WorldDead with pidFile := some (toString c1WorldDead.selfPid) },
         [FileOp.remove, FileOp.write (toString c1WorldDead.selfPid)])) :=
  ⟨⟨rfl, (c1_singleton_exclusivity c1World " 42\n" 42 rfl (by decide)).1 rfl⟩,
   ⟨rfl, (c1_singleton_exclusivity c1WorldDead "42" 42 rfl (by decide)).2 rfl⟩⟩

/-! ## Claim C2 -/

/-- C2: checkTraffic is healthy iff the port dial succeeds and the proxied
HEAD probe returns status exactly 200; the probe is attempted exactly when
the port stage succeeds (so a port failure short-circuits stage 2), and any
transport failure or non-200 status is unhealthy. -/
theorem c2_health_check_iff (env : NetEnv) :
    ((checkTraffic env).1 = true ↔ (env.portOpen = true ∧ env.headResult = some 200)) ∧
    (checkTraffic env).2 = ⟨1, if env.portOpen then 1 else 0⟩ := by
  rcases env with ⟨p, hr⟩
  cases p <;> cases hr <;> simp [checkTraffic, checkPort]

/-! ## Claim C3 -/

def c3World : PIDWorld := ⟨some "garbage", fun _ => false, 7⟩

/-- C3 counterexample: a lock file whose content does not parse makes
createPIDFile return a parse error (aborting startup) with no file
operation, rather than overwriting the lock and succeeding as claimed. -/
theorem c3_parse_failure_cx :
    atoi? (trimSpace "garbage") = none ∧
    createPIDFile c3World = (Except.error (PIDError.parseFailed "garbage"), []) := by
  constructor <;> rfl

/-- C3 amended: for every existing lock file whose content fails to parse as
a process identifier, createPIDFile fails with a parse error naming the
content and performs no file operation; the failure propagates to the caller
and aborts startup. -/
theorem c3_parse_failure_fails (w : PIDWorld) (content : String)
    (hfile : w.pidFile = some content) (hparse : atoi? (trimSpace content) = none) :
    createPIDFile w = (Except.error (PIDError.parseFailed content), []) := by
  unfold createPIDFile
  rw [hfile]
  simp [hparse]

/-- C3 witness for the amended claim. -/
theorem c3_parse_failure_fails_witness :
    createPIDFile c3World = (Except.error (PIDError.parseFailed "garbage"), []) :=
  c3_parse_failure_fails c3World "garbage" rfl (by decide)

/-! ## Shared lemmas about stopSSH and startSSH -/

/-- stopSSH on a non-running reference is a pure no-op. -/
theorem stopSSH_noop (env : StopEnv) (s : Option ProcHandle)
    (h : isProcessRunning s = false) : stopSSH env s = (s, []) := by
  simp [stopSSH, h]

/-- After any stopSSH call the resulting reference is never running. -/
theorem stopSSH_preserves_not_running (env : StopEnv) (s : Option ProcHandle) :
    isProcessRunning (stopSSH env s).1 = false := by
  unfold stopSSH
  cases h : isProcessRunning s
  · simpa using h
  · simp [isProcessRunning]

/-- startSSH on a non-running reference always makes exactly one spawn
attempt. -/
theorem startSSH_spawns_of_not_running (env : StartEnv) (s : Option ProcHandle)
    (h : isProcessRunning s = false) : (startSSH env s).spawns = 1 := by
  unfold startSSH
  rw [h]
  by_cases hs : env.spawnOk
  · rcases hw : waitForTunnelReady env.portObs with ⟨b, c, sl⟩
    cases b <;> simp [hs, hw]
  · simp [hs]

/-! ## Claim C4 -/

def c4Env : StopEnv := ⟨true, true, true, false⟩

/-- C4 counterexample: the graceful SIGTERM delivers but the process has not
exited by the time the blocking Wait is issued, and stopSSH still issues no
Kill: the action trace is exactly SIGTERM then Wait, refuting the claimed
wait-time escalation. -/
theorem c4_no_timeout_kill_cx :
    c4Env.exitedBeforeWait = false ∧
    (stopSSH c4Env (some ⟨true, false⟩)).2 = [StopAct.sigterm, StopAct.wait] ∧
    (stopSSH c4Env (some ⟨true, false⟩)).2.count StopAct.kill = 0 := by
  refine ⟨rfl, rfl, rfl⟩

/-- C4 amended: for every stop of a running process, stopSSH sends the
graceful SIGTERM first and escalates to an unconditional Kill exactly when
that delivery itself fails; there is no escalation based on the process not
having exited by the time the blocking Wait is issued.  It always concludes
with the blocking Wait, and neither a Wait error nor the exit timing changes
any observable behaviour (wait errors are logged, never propagated). -/
theorem c4_stop_escalation (env : StopEnv) (s : Option ProcHandle)
    (h : isProcessRunning s = true) :
    (stopSSH env s).2.head? = some StopAct.sigterm ∧
    (stopSSH env s).2.getLast? = some StopAct.wait ∧
    (StopAct.kill ∈ (stopSSH env s).2 ↔ env.sigtermOk = false) ∧
    stopSSH { env with exitedBeforeWait := !env.exitedBeforeWait } s = stopSSH env s ∧
    stopSSH { env with waitOk := !env.waitOk } s = stopSSH env s := by
  rcases env with ⟨st, k, wo, eb⟩
  cases st <;> simp [stopSSH, h]

/-- C4 witness: with SIGTERM delivery failing, Kill is in the trace and the
trace still ends in the blocking Wait. -/
theorem c4_stop_escalation_witness :
    (StopAct.kill ∈ (stopSSH ⟨false, true, true, true⟩ (some ⟨true, false⟩)).2 ↔
      (⟨false, true, true, true⟩ : StopEnv).sigtermOk = false) ∧
    (stopSSH ⟨false, true, true, true⟩ (some ⟨true, false⟩)).2.getLast? =
      some StopAct.wait :=
  ⟨(c4_stop_escalation ⟨false, true, true, true⟩ (some ⟨true, false⟩) rfl).2.2.1,
   (c4_stop_escalation ⟨false, true, true, true⟩ (some ⟨true, false⟩) rfl).2.1⟩

/-! ## Claim C5 -/

/-- When every attempt in range fails, the readiness loop uses all its fuel:
one dial and one sleep per attempt, no traffic probe, and reports failure. -/
theorem waitLoop_allFail (portObs : Nat → Bool) :
    ∀ (fuel i : Nat), (∀ j, j < fuel → portObs (i + j) = false) →
      waitLoop portObs i fuel = (false, ⟨fuel, 0⟩, fuel) := by
  intro fuel
  induction fuel with
  | zero => intro i _; rfl
  | succ n ih =>
    intro i h
    have h0 : portObs i = false := by simpa using h 0 (Nat.succ_pos n)
    have hrest : ∀ j, j < n → portObs (i + 1 + j) = false := by
      intro j hj
      have hx := h (j + 1) (Nat.succ_lt_succ hj)
      have e : i + (j + 1) = i + 1 + j := by omega
      rwa [e] at hx
    have hr := ih (i + 1) hrest
    simp [waitLoop, h0, hr]

/-- When attempt k is the first success within the fuel bound, the loop stops
there: k+1 dials, k sleeps, no traffic probe, success. -/
theorem waitLoop_firstAt (portObs : Nat → Bool) :
    ∀ (fuel k i : Nat), k < fuel → portObs (i + k) = true →
      (∀ j, j < k → portObs (i + j) = false) →
      waitLoop portObs i fuel = (true, ⟨k + 1, 0⟩, k) := by
  intro fuel
  induction fuel with
  | zero => intro k i hk; exact absurd hk (Nat.not_lt_zero k)
  | succ n ih =>
    intro k i hk htrue hbefore
    cases k with
    | zero =>
      have h0 : portObs i = true := by simpa using htrue
      simp [waitLoop, h0]
    | succ m =>
      have h0 : portObs i = false := by simpa using hbefore 0 (Nat.succ_pos m)
      have htrue' : portObs (i + 1 + m) = true := by
        have e : i + (m + 1) = i + 1 + m := by omega
        rwa [e] at htrue
      have hbefore' : ∀ j, j < m → portObs (i + 1 + j) = false := by
        intro j hj
        have hx := hbefore (j + 1) (Nat.succ_lt_succ hj)
        have e : i + (j + 1) = i + 1 + j := by omega
        rwa [e] at hx
      have hr := ih m (i + 1) (Nat.lt_of_succ_lt_succ hk) htrue' hbefore'
      simp [waitLoop, h0, hr]

/-- C5: after a successful spawn, the readiness poll makes at most five
port-dial attempts with one-second sleeps between them and never the traffic
probe; it succeeds as soon as one attempt observes the port open (first
success at attempt k means k+1 dials and k sleeps), and when all five
attempts fail startSSH returns the tunnel-not-ready result with the spawned
process still referenced, not rolled back. -/
theorem c5_readiness_poll (env : StartEnv) (s : Option ProcHandle)
    (hrun : isProcessRunning s = false) (hspawn : env.spawnOk = true) :
    ((∀ j, j < 5 → env.portObs j = false) →
      startSSH env s = ⟨StartResult.notReady, some env.newProc, 1, ⟨5, 0⟩, 5⟩) ∧
    (∀ k, k < 5 → env.portObs k = true → (∀ j, j < k → env.portObs j = false) →
      startSSH env s = ⟨StartResult.ok, some env.newProc, 1, ⟨k + 1, 0⟩, k⟩) := by
  constructor
  · intro hfail
    have hw : waitForTunnelReady env.portObs = (false, ⟨5, 0⟩, 5) := by
      have hx := waitLoop_allFail env.portObs 5 0 (by simpa using hfail)
      simpa [waitForTunnelReady] using hx
    simp [startSSH, hrun, hspawn, hw]
  · intro k hk ht hb
    have hw : waitForTunnelReady env.portObs = (true, ⟨k + 1, 0⟩, k) := by
      have hx := waitLoop_firstAt env.portObs 5 k 0 hk (by simpa using ht)
        (by simpa using hb)
      simpa [waitForTunnelReady] using hx
    simp [startSSH, hrun, hspawn, hw]

/-- Port observations of the spec's concrete scenario: the first attempt
fails, the second observes the port open. -/
def c5Obs : Nat → Bool := fun i => decide (1 ≤ i)

/-- C5 witness: first success at the second attempt yields success after two
dials, one sleep and no probe. -/
theorem c5_readiness_poll_witness :
    startSSH ⟨true, ⟨true, false⟩, c5Obs⟩ none =
      ⟨StartResult.ok, some ⟨true, false⟩, 1, ⟨1 + 1, 0⟩, 1⟩ :=
  (c5_readiness_poll ⟨true, ⟨true, false⟩, c5Obs⟩ none rfl rfl).2 1 (by decide)
    (by decide) (by decide)

/-! ## Claim C6 -/

/-- C6: when the held handle is live, startSSH returns success at once with
no spawn attempt and the reference unchanged; and the decision really is by
handle liveness, not by mere presence of a reference: a held handle whose
exit has been observed leads to a spawn attempt. -/
theorem c6_no_double_start :
    (∀ (env : StartEnv) (s : Option ProcHandle), isProcessRunning s = true →
       startSSH env s = ⟨StartResult.ok, s, 0, ⟨0, 0⟩, 0⟩) ∧
    (∀ (env : StartEnv) (h : ProcHandle), h.exited = true →
       (startSSH env (some h)).spawns = 1) := by
  constructor
  · intro env s hrun
    simp [startSSH, hrun]
  · intro env h hex
    exact startSSH_spawns_of_not_running env (some h) (by simp [isProcessRunning, hex])

/-- C6 witness: a live handle is kept as is with zero spawns; an exited
handle is replaced via a spawn attempt. -/
theorem c6_no_double_start_witness :
    startSSH ⟨true, ⟨true, false⟩, fun _ => true⟩ (some ⟨true, false⟩) =
      ⟨StartResult.ok, some ⟨true, false⟩, 0, ⟨0, 0⟩, 0⟩ ∧
    (startSSH ⟨true, ⟨true, false⟩, fun _ => true⟩ (some ⟨true, true⟩)).spawns = 1 :=
  ⟨c6_no_double_start.1 ⟨true, ⟨true, false⟩, fun _ => true⟩ (some ⟨true, false⟩) rfl,
   c6_no_double_start.2 ⟨true, ⟨true, false⟩, fun _ => true⟩ ⟨true, true⟩ rfl⟩

/-! ## Claim C7 -/

/-- C7: stopSSH is idempotent: on an absent or non-running reference it
returns immediately with no signal and the state unchanged, and a second
stop right after any stop is such a no-op, so stop after stop equals one
stop. -/
theorem c7_stop_idempotent :
    (∀ (env : StopEnv) (s : Option ProcHandle), isProcessRunning s = false →
       stopSSH env s = (s, [])) ∧
    (∀ (env env' : StopEnv) (s : Option ProcHandle),
       stopSSH env' (stopSSH env s).1 = ((stopSSH env s).1, [])) := by
  refine ⟨stopSSH_noop, ?_⟩
  intro env env' s
  exact stopSSH_noop env' _ (stopSSH_preserves_not_running env s)

/-- C7 witness: stop on an absent reference and stop after stop. -/
theorem c7_stop_idempotent_witness :
    stopSSH ⟨true, true, true, true⟩ none = (none, []) ∧
    stopSSH ⟨true, true, true, true⟩
        (stopSSH ⟨true, true, true, true⟩ (some ⟨true, false⟩)).1 =
      ((stopSSH ⟨true, true, true, true⟩ (some ⟨true, false⟩)).1, []) :=
  ⟨c7_stop_idempotent.1 ⟨true, true, true, true⟩ none rfl,
   c7_stop_idempotent.2 ⟨true, true, true, true⟩ ⟨true, true, true, true⟩
     (some ⟨true, false⟩)⟩

/-! ## Claim C8 -/

/-- Events after the first shutdown observation are never processed: the loop
returns at the shutdown boundary. -/
theorem runLoop_stops_at_shutdown (post : List LoopEvent) :
    ∀ (evs : List LoopEvent) (s : Option ProcHandle),
      evs.all (fun e => !e.isShutdown) = true →
      runLoop s (evs ++ LoopEvent.shutdown :: post) = runLoop s evs := by
  intro evs
  induction evs with
  | nil => intro s _; rfl
  | cons e rest ih =>
    intro s hall
    cases e with
    | shutdown => simp [LoopEvent.isShutdown] at hall
    | tick t =>
      have hrest : rest.all (fun e => !e.isShutdown) = true := by
        simpa [LoopEvent.isShutdown] using hall
      simp only [List.cons_append]
      by_cases hc : (checkTraffic t.net).1
      · simp [runLoop, hc, ih _ hrest]
      · simp [runLoop, hc, ih _ hrest]

/-- C8: for a schedule whose prefix holds no shutdown, the loop run over that
schedule equals the prefix cycles followed directly by cleanup (stop, remove
PID file); the events after the shutdown contribute nothing, no health check
runs after the shutdown observation (the health-check count is that of the
prefix), and the final process reference is not running.  Observation points
are select wait boundaries by construction, so the signal is never observed
mid-health-check. -/
theorem c8_shutdown_drains (s : Option ProcHandle) (evsPre post : List LoopEvent)
    (cenv : StopEnv) (hpre : evsPre.all (fun e => !e.isShutdown) = true) :
    runAndCleanup s (evsPre ++ LoopEvent.shutdown :: post) cenv =
      ((stopSSH cenv (runLoop s evsPre).1).1,
       (runLoop s evsPre).2 ++ [RunAct.stopCall, RunAct.removePID]) ∧
    (runAndCleanup s (evsPre ++ LoopEvent.shutdown :: post) cenv).2.count
        RunAct.healthCheck = ((runLoop s evsPre).2).count RunAct.healthCheck ∧
    isProcessRunning (runAndCleanup s (evsPre ++ LoopEvent.shutdown :: post) cenv).1 =
      false := by
  have hrun := runLoop_stops_at_shutdown post evsPre s hpre
  have h1 : runAndCleanup s (evsPre ++ LoopEvent.shutdown :: post) cenv =
      ((stopSSH cenv (runLoop s evsPre).1).1,
       (runLoop s evsPre).2 ++ [RunAct.stopCall, RunAct.removePID]) := by
    unfold runAndCleanup
    rw [hrun]
  refine ⟨h1, ?_, ?_⟩
  · rw [h1, List.count_append]
    rfl
  · rw [h1]
    exact stopSSH_preserves_not_running cenv _

/-- A tick whose health check is healthy, for the C8 witness. -/
def c8Tick : TickEnv :=
  ⟨⟨true, some 200⟩, ⟨true, true, true, true⟩, ⟨true, ⟨true, false⟩, fun _ => true⟩⟩

/-- C8 witness: one healthy cycle, then shutdown, with one more tick pending
behind it that is never processed. -/
theorem c8_shutdown_drains_witness :
    runAndCleanup (some ⟨true, false⟩)
        ([LoopEvent.tick c8Tick] ++ LoopEvent.shutdown :: [LoopEvent.tick c8Tick])
        ⟨true, true, true, true⟩ =
      ((stopSSH ⟨true, true, true, true⟩
          (runLoop (some ⟨true, false⟩) [LoopEvent.tick c8Tick]).1).1,
       (runLoop (some ⟨true, false⟩) [LoopEvent.tick c8Tick]).2 ++
         [RunAct.stopCall, RunAct.removePID]) ∧
    (runAndCleanup (some ⟨true, false⟩)
        ([LoopEvent.tick c8Tick] ++ LoopEvent.shutdown :: [LoopEvent.tick c8Tick])
        ⟨true, true, true, true⟩).2.count RunAct.healthCheck =
      ((runLoop (some ⟨true, false⟩) [LoopEvent.tick c8Tick]).2).count
        RunAct.healthCheck ∧
    isProcessRunning
      (runAndCleanup (some ⟨true, false⟩)
          ([LoopEvent.tick c8Tick] ++ LoopEvent.shutdown :: [LoopEvent.tick c8Tick])
          ⟨true, true, true, true⟩).1 = false :=
  c8_shutdown_drains (some ⟨true, false⟩) [LoopEvent.tick c8Tick]
    [LoopEvent.tick c8Tick] ⟨true, true, true, true⟩ rfl

/-! ## Claim C9 -/

/-- C9 counterexample: at the defaults (a validated configuration), the
argument vector the code builds differs from the vector in the claimed
order, because the code emits the destination address before the target-port
option rather than after it. -/
theorem c9_arg_order_cx :
    validate defaultConf = true ∧
    (serializeSSHOptions defaultConf == serializeSSHOptionsClaimOrder defaultConf)
      = false ∧
    serializeSSHOptions defaultConf =
      ["-N", "-C", "-o", "TCPKeepAlive=yes", "-o", "ServerAliveInterval=15",
       "-o", "ConnectTimeout=10", "-o", "StrictHostKeyChecking=no",
       "-D", "0.0.0.0:8080", "user@example.com", "-p", "2212"] := by
  refine ⟨rfl, by decide, rfl⟩

/-- C9 amended: for every validated configuration with a positive
server-alive interval, a positive connect timeout and strict host-key
checking disabled (as in the defaults), the argument vector encodes, in
order: the misc flags (no-remote-command and compression by default), the
keepalive option, the server-alive-interval option, the connect-timeout
option, the host-key-checking policy option, the dynamic port-forward bind
specification, the destination address, and then the target port, each
derived unchanged from configuration. -/
theorem c9_arg_vector (c : config) (hv : validate c = true)
    (hsa : 0 < c.SSHOptions.ServerAliveInterval)
    (hct : 0 < c.SSHOptions.ConnectTimeout)
    (hshc : c.SSHOptions.StrictHostChecking = false) :
    serializeSSHOptions c =
      c.SSHOptions.MiscOptions ++
        ["-o", if c.SSHOptions.TCPKeepAlive then "TCPKeepAlive=yes"
               else "TCPKeepAlive=no",
         "-o", "ServerAliveInterval=" ++ toString c.SSHOptions.ServerAliveInterval,
         "-o", "ConnectTimeout=" ++ toString c.SSHOptions.ConnectTimeout,
         "-o", "StrictHostKeyChecking=no",
         "-D", c.SSHOptions.BindHost, c.SSHOptions.RemoteAddress,
         "-p", toString c.SSHOptions.RemotePort] := by
  by_cases hka : c.SSHOptions.TCPKeepAlive <;>
    simp [serializeSSHOptions, hsa, hct, hshc, hka]

/-- C9 witness: the amended vector at the default configuration. -/
theorem c9_arg_vector_witness :
    serializeSSHOptions defaultConf =
      defaultConf.SSHOptions.MiscOptions ++
        ["-o", if defaultConf.SSHOptions.TCPKeepAlive then "TCPKeepAlive=yes"
               else "TCPKeepAlive=no",
         "-o", "ServerAliveInterval=" ++
           toString defaultConf.SSHOptions.ServerAliveInterval,
         "-o", "ConnectTimeout=" ++ toString defaultConf.SSHOptions.ConnectTimeout,
         "-o", "StrictHostKeyChecking=no",
         "-D", defaultConf.SSHOptions.BindHost,
         defaultConf.SSHOptions.RemoteAddress,
         "-p", toString defaultConf.SSHOptions.RemotePort] :=
  c9_arg_vector defaultConf rfl (by decide) (by decide) rfl

/-! ## Claim C10 -/

/-- C10: every stop of a running process clears the reference to none before
returning, for every combination of signal, kill and wait outcomes; an
immediately following stop is a no-op and an immediately following start
treats the process as not running and spawns. -/
theorem c10_stop_clears_reference (env cenv : StopEnv) (senv : StartEnv)
    (s : Option ProcHandle) (h : isProcessRunning s = true) :
    (stopSSH env s).1 = none ∧
    stopSSH cenv (stopSSH env s).1 = (none, []) ∧
    (startSSH senv (stopSSH env s).1).spawns = 1 := by
  have h1 : (stopSSH env s).1 = none := by simp [stopSSH, h]
  refine ⟨h1, ?_, ?_⟩
  · rw [h1]
    exact stopSSH_noop cenv none rfl
  · rw [h1]
    exact startSSH_spawns_of_not_running senv none rfl

/-- C10 witness: even when SIGTERM, Kill and Wait all fail, the reference is
cleared and the next stop and start treat the process as not running. -/
theorem c10_stop_clears_reference_witness :
    (stopSSH ⟨false, false, false, false⟩ (some ⟨true, false⟩)).1 = none ∧
    stopSSH ⟨false, false, false, false⟩
        (stopSSH ⟨false, false, false, false⟩ (some ⟨true, false⟩)).1 = (none, []) ∧
    (startSSH ⟨true, ⟨true, false⟩, fun _ => true⟩
        (stopSSH ⟨false, false, false, false⟩ (some ⟨true, false⟩)).1).spawns = 1 :=
  c10_stop_clears_reference ⟨false, false, false, false⟩ ⟨false, false, false, false⟩
    ⟨true, ⟨true, false⟩, fun _ => true⟩ (some ⟨true, false⟩) rfl
